import Mathlib

/-!
Verification development for the task-flow-api request-to-persistence
pipeline. The Python source under src/src is shallowly embedded: SQLAlchemy
rows become structures, datetimes become naturals, Python exceptions become
an explicit `Exc` type, and the ORM session becomes a pair of database
states (durable and pending). Each definition is annotated with the source
file and lines it translates.
-/

namespace TaskFlow

/-! ## Data model (src/src/models) -/

/-- Row of a status lookup table (models/customer_status.py,
models/project_status.py, models/activity_status.py): an id and a textual
enumerator token. -/
structure StatusRow where
  id : Nat
  enumerator : String
deriving Repr, DecidableEq

/-- Row of the Customer table (models/customer.py). -/
structure CustomerRow where
  id : Nat
  customer_key : String
  status_id : Nat
  name : String
  email : String
  created_at : Nat
  updated_at : Nat
deriving Repr, DecidableEq

/-- Row of the Project table (models/project.py). `due_date` is a nullable
column, hence an `Option`. -/
structure ProjectRow where
  id : Nat
  project_key : String
  customer_id : Nat
  status_id : Nat
  name : String
  due_date : Option Nat
  created_at : Nat
  updated_at : Nat
deriving Repr, DecidableEq

/-- Row of the Activity table (models/activity.py). -/
structure ActivityRow where
  id : Nat
  activity_key : String
  project_id : Nat
  status_id : Nat
  due_date : Option Nat
  description : String
  created_at : Nat
  updated_at : Nat
deriving Repr, DecidableEq

/-- The relational store: the five tables of the task_flow schema plus the
activity status table. -/
structure DB where
  customerStatuses : List StatusRow
  projectStatuses : List StatusRow
  activityStatuses : List StatusRow
  customers : List CustomerRow
  projects : List ProjectRow
  activities : List ActivityRow
deriving Repr, DecidableEq

/-- A Python exception as seen by the service layer: either a
fastapi.HTTPException carrying a status code and a detail string, or any
other exception (SQLAlchemy errors, AttributeError, pydantic validation
errors, ...) carrying its message. -/
inductive Exc where
  | http (statusCode : Nat) (detail : String)
  | other (msg : String)
deriving Repr, DecidableEq

/-- The SQLAlchemy session of one unit of work: `durable` is the committed
database state, `pending` is what queries inside the session observe
(committed state plus staged, not yet committed changes). -/
structure Sess where
  durable : DB
  pending : DB
deriving Repr, DecidableEq

/-- `session.commit()` (base_repository.py line 81): makes every staged
change durable. -/
def commitS (s : Sess) : Sess := { s with durable := s.pending }

/-- Python truthiness of an `Optional[str]` argument: `None` and the empty
string are falsy, every other string is truthy. This is the check the
repository `update` methods perform with `if name:` and friends. -/
def pyTruthy (o : Option String) : Bool :=
  match o with
  | none => false
  | some s => s != ""

/-! ## Base repository (src/src/repositories/base_repository.py) -/

/-- `BaseRepository.get_enumerator` (base_repository.py lines 112-123):
`query(model).filter(model.enumerator == enumerator).one()`. `.one()`
returns the single matching row and raises `NoResultFound` on zero matches
and `MultipleResultsFound` on more than one. -/
def get_enumerator (table : List StatusRow) (tok : String) : Except Exc StatusRow :=
  match table.filter (fun r => r.enumerator == tok) with
  | [r] => .ok r
  | [] => .error (.other "NoResultFound")
  | _ => .error (.other "MultipleResultsFound")

/-- Attribute access `row.status.enumerator` where `status` is the
lazy-joined relationship resolved through `status_id`: yields the
enumerator token of the first status row with the matching id, and raises
(AttributeError on `None`) when no row matches. -/
def statusEnumerator (table : List StatusRow) (status_id : Nat) : Except Exc String :=
  match table.filter (fun r => r.id == status_id) with
  | [] => .error (.other "AttributeError: NoneType has no attribute enumerator")
  | r :: _ => .ok r.enumerator

/-- Attribute access `project.customer` through the foreign key
`customer_id` (models/project.py line 51). -/
def customerRel (db : DB) (p : ProjectRow) : Except Exc CustomerRow :=
  match db.customers.filter (fun c => c.id == p.customer_id) with
  | [] => .error (.other "AttributeError: NoneType customer relationship")
  | c :: _ => .ok c

/-- Attribute access `activity.project` through the foreign key
`project_id` (models/activity.py line 48). -/
def projectRel (db : DB) (a : ActivityRow) : Except Exc ProjectRow :=
  match db.projects.filter (fun p => p.id == a.project_id) with
  | [] => .error (.other "AttributeError: NoneType project relationship")
  | p :: _ => .ok p

/-- Relationship `project.activities` (models/project.py line 49): all
activity rows whose `project_id` references the project. -/
def activitiesRel (db : DB) (p : ProjectRow) : List ActivityRow :=
  db.activities.filter (fun a => a.project_id == p.id)

/-! ## Customer repository (src/src/repositories/customer_repository.py) -/

/-- `CustomerRepository.get_by_key` (customer_repository.py lines 54-66):
`query(Customer).filter_by(customer_key=...).first()`; `first()` returns
the first match or `None`, it never raises. -/
def CustomerRepository.get_by_key (db : DB) (customer_key : String) : Option CustomerRow :=
  (db.customers.filter (fun c => c.customer_key == customer_key)).head?

/-- `CustomerRepository.create` (customer_repository.py lines 34-52):
generates a fresh key (the `freshKey` argument stands for
`str(uuid.uuid4())`), resolves the default status "active" via
`get_enumerator` (which can raise), sets name and email, and stages the row
with `add`. Timestamps receive the column default, which per
models/customer.py lines 41-42 is the value of `datetime.now(UTC)`
evaluated once at import time (`importTime`); the autoincrement id is
modelled as the current table length. Does not commit. -/
def CustomerRepository.create (s : Sess) (freshKey : String) (importTime : Nat)
    (name email : String) : Except Exc CustomerRow × Sess :=
  match get_enumerator s.pending.customerStatuses "active" with
  | .error e => (.error e, s)
  | .ok st =>
    let row : CustomerRow :=
      { id := s.pending.customers.length
        customer_key := freshKey
        status_id := st.id
        name := name
        email := email
        created_at := importTime
        updated_at := importTime }
    (.ok row, { s with pending := { s.pending with customers := s.pending.customers ++ [row] } })

/-- `CustomerRepository.update` (customer_repository.py lines 68-96): each
field is applied only when truthy (`if name:` / `if email:` / `if status:`);
a truthy status token is resolved through `get_enumerator`, which raises on
an unknown token, and the resolved row (always truthy) is applied. Returns
the updated row; does not commit. -/
def CustomerRepository.update (customerStatuses : List StatusRow) (customer : CustomerRow)
    (name email statusTok : Option String) : Except Exc CustomerRow :=
  let c1 := if pyTruthy name then { customer with name := name.getD "" } else customer
  let c2 := if pyTruthy email then { c1 with email := email.getD "" } else c1
  if pyTruthy statusTok then
    match get_enumerator customerStatuses (statusTok.getD "") with
    | .error e => .error e
    | .ok st => .ok { c2 with status_id := st.id }
  else .ok c2

/-! ## Project repository (src/src/repositories/project_repository.py) -/

/-- `ProjectRepository.get_by_key` (project_repository.py lines 63-75). -/
def ProjectRepository.get_by_key (db : DB) (project_key : String) : Option ProjectRow :=
  (db.projects.filter (fun p => p.project_key == project_key)).head?

/-- `ProjectRepository.create` (project_repository.py lines 37-61): fresh
key, default status "open" via `get_enumerator`, the given customer as
parent, the name, and `if due_date:` assigns the due date (an absent date
leaves the column NULL, which coincides with assigning the `Option`
directly). Stages the row; does not commit. -/
def ProjectRepository.create (s : Sess) (freshKey : String) (importTime : Nat)
    (name : String) (customer : CustomerRow) (due_date : Option Nat) :
    Except Exc ProjectRow × Sess :=
  match get_enumerator s.pending.projectStatuses "open" with
  | .error e => (.error e, s)
  | .ok st =>
    let row : ProjectRow :=
      { id := s.pending.projects.length
        project_key := freshKey
        customer_id := customer.id
        status_id := st.id
        name := name
        due_date := due_date
        created_at := importTime
        updated_at := importTime }
    (.ok row, { s with pending := { s.pending with projects := s.pending.projects ++ [row] } })

/-- `ProjectRepository.update` (project_repository.py lines 77-105):
`if name:` applies the name, `if due_date:` applies the due date (a datetime
object is always truthy, so this is `isSome`), `if status:` resolves the
token via `get_enumerator` and applies the resolved row. -/
def ProjectRepository.update (projectStatuses : List StatusRow) (project : ProjectRow)
    (name statusTok : Option String) (due_date : Option Nat) : Except Exc ProjectRow :=
  let p1 := if pyTruthy name then { project with name := name.getD "" } else project
  let p2 := match due_date with
    | some d => { p1 with due_date := some d }
    | none => p1
  if pyTruthy statusTok then
    match get_enumerator projectStatuses (statusTok.getD "") with
    | .error e => .error e
    | .ok st => .ok { p2 with status_id := st.id }
  else .ok p2

/-- `ProjectRepository.count_projects_by_customer` (project_repository.py
lines 107-130): filter on the customer id; `if status:` resolves the token
(raising on an unknown one) and filters on equality with the resolved row;
`if due_date:` filters on `Project.due_date <= due_date`, which in SQL is
false for a NULL due date; finally `query.count()`. -/
def ProjectRepository.count_projects_by_customer (db : DB) (customer_id : Nat)
    (statusTok : String) (due_date : Option Nat) : Except Exc Nat :=
  let query := db.projects.filter (fun p => p.customer_id == customer_id)
  let q1E : Except Exc (List ProjectRow) :=
    if statusTok != "" then
      match get_enumerator db.projectStatuses statusTok with
      | .error e => .error e
      | .ok stObj => .ok (query.filter (fun p => p.status_id == stObj.id))
    else .ok query
  match q1E with
  | .error e => .error e
  | .ok q1 =>
    let q2 : List ProjectRow := match due_date with
      | some cutoff => q1.filter (fun p =>
          match p.due_date with
          | some d => decide (d ≤ cutoff)
          | none => false)
      | none => q1
    .ok q2.length

/-- `ProjectRepository.list_projects_by_customer` (project_repository.py
lines 132-165): the same filter construction as the count (lines 153-160
repeat lines 121-128 verbatim), then `offset = (page - 1) * limit`,
`query.offset(offset).limit(limit)` and `.all()`. -/
def ProjectRepository.list_projects_by_customer (db : DB) (customer_id : Nat)
    (statusTok : String) (due_date : Option Nat) (limit page : Nat) :
    Except Exc (List ProjectRow) :=
  let query := db.projects.filter (fun p => p.customer_id == customer_id)
  let q1E : Except Exc (List ProjectRow) :=
    if statusTok != "" then
      match get_enumerator db.projectStatuses statusTok with
      | .error e => .error e
      | .ok stObj => .ok (query.filter (fun p => p.status_id == stObj.id))
    else .ok query
  match q1E with
  | .error e => .error e
  | .ok q1 =>
    let q2 : List ProjectRow := match due_date with
      | some cutoff => q1.filter (fun p =>
          match p.due_date with
          | some d => decide (d ≤ cutoff)
          | none => false)
      | none => q1
    let offset := (page - 1) * limit
    .ok ((q2.drop offset).take limit)

/-! ## Activity repository (src/src/repositories/activity_repository.py) -/

/-- `ActivityRepository.get_by_key` (activity_repository.py lines 59-71). -/
def ActivityRepository.get_by_key (db : DB) (activity_key : String) : Option ActivityRow :=
  (db.activities.filter (fun a => a.activity_key == activity_key)).head?

/-- `ActivityRepository.create` (activity_repository.py lines 35-57): fresh
key, default status "not_started" via `get_enumerator`, the given project
as parent, description and due date (assigned unconditionally), then `add`.
Does not commit. -/
def ActivityRepository.create (s : Sess) (freshKey : String) (importTime : Nat)
    (description : String) (due_date : Option Nat) (project : ProjectRow) :
    Except Exc ActivityRow × Sess :=
  match get_enumerator s.pending.activityStatuses "not_started" with
  | .error e => (.error e, s)
  | .ok st =>
    let row : ActivityRow :=
      { id := s.pending.activities.length
        activity_key := freshKey
        project_id := project.id
        status_id := st.id
        due_date := due_date
        description := description
        created_at := importTime
        updated_at := importTime }
    (.ok row, { s with pending := { s.pending with activities := s.pending.activities ++ [row] } })

/-- `ActivityRepository.update` (activity_repository.py lines 73-102):
`if description:` applies the description, `if due_date:` the due date,
`if status:` the resolved status row. -/
def ActivityRepository.update (activityStatuses : List StatusRow) (activity : ActivityRow)
    (description statusTok : Option String) (due_date : Option Nat) : Except Exc ActivityRow :=
  let a1 := if pyTruthy description then { activity with description := description.getD "" } else activity
  let a2 := match due_date with
    | some d => { a1 with due_date := some d }
    | none => a1
  if pyTruthy statusTok then
    match get_enumerator activityStatuses (statusTok.getD "") with
    | .error e => .error e
    | .ok st => .ok { a2 with status_id := st.id }
  else .ok a2

/-! ## Response DTOs (src/src/schemas) -/

/-- schemas/customer.py `CustomerResponseDTO`. -/
structure CustomerResponseDTO where
  customer_key : String
  name : String
  email : String
  status : String
  created_at : Nat
  updated_at : Nat
deriving Repr, DecidableEq

/-- schemas/project.py `ProjectResponseDTO`. The schema has no activities
field, so the "activities" key the list flow adds to the dict is a pydantic
extra key and is discarded by `model_validate`. -/
structure ProjectResponseDTO where
  project_key : String
  name : String
  status : String
  customer_key : String
  due_date : Option Nat
  created_at : Nat
  updated_at : Nat
deriving Repr, DecidableEq

/-- schemas/activity.py `ActivityResponseDTO`: activity_key, project_key,
due_date, description, status (no timestamp fields; the extra created_at
and updated_at keys the services pass are discarded by validation). -/
structure ActivityResponseDTO where
  activity_key : String
  project_key : String
  due_date : Option Nat
  description : String
  status : String
deriving Repr, DecidableEq

/-- schemas/project.py `PaginatedProjectsResponseDTO`. -/
structure PaginatedProjectsResponseDTO where
  projects : List ProjectResponseDTO
  total_items : Nat
  total_pages : Nat
  current_page : Nat
  limit : Nat
deriving Repr, DecidableEq

/-! ## Service-layer exception handling (src/src/services)

Every service method wraps its body in `try/except`. The three
`ProjectService` methods end with

  except HTTPException as http_exc: raise http_exc
  except Exception as e: raise HTTPException(500, "An internal error occurred")

(services/project.py lines 86-93, 132-139, 187-194, 281-288), re-raising an
HTTPException unchanged and wrapping everything else. Every
`CustomerService` and `ActivityService` method has only

  except Exception as e: raise HTTPException(500, "An internal error occurred")

(services/customer.py lines 67-72, 110-115, 162-167; services/activity.py
lines 84-89, 128-133, 181-186). Since `fastapi.HTTPException` subclasses
`Exception`, that single clause also catches the 404 HTTPExceptions these
methods raise themselves. -/

/-- The `except HTTPException: raise / except Exception: 500` tail used by
all ProjectService methods. -/
def projectStyleHandler {α : Type} (r : Except Exc α) : Except Exc α :=
  match r with
  | .ok a => .ok a
  | .error (.http c d) => .error (.http c d)
  | .error (.other _) => .error (.http 500 "An internal error occurred")

/-- The lone `except Exception: 500` tail used by all CustomerService and
ActivityService methods; it also swallows HTTPExceptions. -/
def catchAllHandler {α : Type} (r : Except Exc α) : Except Exc α :=
  match r with
  | .ok _ => r
  | .error _ => .error (.http 500 "An internal error occurred")

/-! ## Customer service (src/src/services/customer.py)

Pydantic `model_validate` is an external collaborator; each service method
takes it as the `validate` argument (`.ok ()` when validation succeeds,
`.error e` when it raises). The `freshKey` and `importTime` arguments stand
for `str(uuid.uuid4())` and the import-time `datetime.now(UTC)` value used
by the column defaults. -/

/-- `CustomerService.create_customer` (customer.py lines 34-72): repository
create, commit, build the response dict (the `status.enumerator` access),
`model_validate`; the whole body runs under the catch-all handler. -/
def CustomerService.create_customer (s : Sess) (freshKey : String) (importTime : Nat)
    (validate : Except Exc Unit) (name email : String) :
    Except Exc CustomerResponseDTO × Sess :=
  let body : Except Exc CustomerResponseDTO × Sess :=
    match CustomerRepository.create s freshKey importTime name email with
    | (.error e, s1) => (.error e, s1)
    | (.ok c, s1) =>
      let s2 := commitS s1
      match statusEnumerator s2.pending.customerStatuses c.status_id with
      | .error e => (.error e, s2)
      | .ok tok =>
        match validate with
        | .error e => (.error e, s2)
        | .ok _ =>
          (.ok { customer_key := c.customer_key, name := c.name, email := c.email,
                 status := tok, created_at := c.created_at, updated_at := c.updated_at }, s2)
  (catchAllHandler body.1, body.2)

/-- `CustomerService.get_customer` (customer.py lines 74-115): fetch by key,
raise HTTPException(404, "Customer not found") when absent, assemble and
validate the response. The tail is only `except Exception`, so the 404 is
itself caught and rewrapped by `catchAllHandler`. -/
def CustomerService.get_customer (s : Sess) (customer_key : String)
    (validate : Except Exc Unit) : Except Exc CustomerResponseDTO × Sess :=
  let body : Except Exc CustomerResponseDTO × Sess :=
    match CustomerRepository.get_by_key s.pending customer_key with
    | none => (.error (.http 404 "Customer not found"), s)
    | some c =>
      match statusEnumerator s.pending.customerStatuses c.status_id with
      | .error e => (.error e, s)
      | .ok tok =>
        match validate with
        | .error e => (.error e, s)
        | .ok _ =>
          (.ok { customer_key := c.customer_key, name := c.name, email := c.email,
                 status := tok, created_at := c.created_at, updated_at := c.updated_at }, s)
  (catchAllHandler body.1, body.2)

/-- Write an updated customer row back into the session (the ORM mutates
the fetched entity in place; rows are identified by primary key). -/
def writeCustomer (s : Sess) (row : CustomerRow) : Sess :=
  { s with pending := { s.pending with
      customers := s.pending.customers.map (fun c => if c.id == row.id then row else c) } }

/-- `CustomerService.update_customer` (customer.py lines 117-167): fetch by
key, 404 when absent, repository update (name, email, status), commit,
assemble and validate. Also guarded only by the catch-all. -/
def CustomerService.update_customer (s : Sess) (customer_key : String)
    (validate : Except Exc Unit) (dto_name dto_email dto_status : Option String) :
    Except Exc CustomerResponseDTO × Sess :=
  let body : Except Exc CustomerResponseDTO × Sess :=
    match CustomerRepository.get_by_key s.pending customer_key with
    | none => (.error (.http 404 "Customer not found"), s)
    | some c =>
      match CustomerRepository.update s.pending.customerStatuses c dto_name dto_email dto_status with
      | .error e => (.error e, s)
      | .ok c2 =>
        let s2 := commitS (writeCustomer s c2)
        match statusEnumerator s2.pending.customerStatuses c2.status_id with
        | .error e => (.error e, s2)
        | .ok tok =>
          match validate with
          | .error e => (.error e, s2)
          | .ok _ =>
            (.ok { customer_key := c2.customer_key, name := c2.name, email := c2.email,
                   status := tok, created_at := c2.created_at, updated_at := c2.updated_at }, s2)
  (catchAllHandler body.1, body.2)

/-! ## Activity service (src/src/services/activity.py) -/

/-- `ActivityService.create_activity` (activity.py lines 36-89): resolve the
project by key, raise HTTPException(404, "Project not found") when absent,
repository create, commit, assemble and validate. The tail is only
`except Exception`, so the 404 is rewrapped as a 500 by `catchAllHandler`. -/
def ActivityService.create_activity (s : Sess) (freshKey : String) (importTime : Nat)
    (validate : Except Exc Unit) (description : String) (project_key : String)
    (due_date : Option Nat) : Except Exc ActivityResponseDTO × Sess :=
  let body : Except Exc ActivityResponseDTO × Sess :=
    match ProjectRepository.get_by_key s.pending project_key with
    | none => (.error (.http 404 "Project not found"), s)
    | some project =>
      match ActivityRepository.create s freshKey importTime description due_date project with
      | (.error e, s1) => (.error e, s1)
      | (.ok a, s1) =>
        let s2 := commitS s1
        match statusEnumerator s2.pending.activityStatuses a.status_id with
        | .error e => (.error e, s2)
        | .ok tok =>
          match validate with
          | .error e => (.error e, s2)
          | .ok _ =>
            (.ok { activity_key := a.activity_key, project_key := project.project_key,
                   due_date := a.due_date, description := a.description, status := tok }, s2)
  (catchAllHandler body.1, body.2)

/-- `ActivityService.get_activity` (activity.py lines 91-133): fetch by key,
404 when absent, assemble (including the `activity.project.project_key`
relationship access) and validate; catch-all tail. -/
def ActivityService.get_activity (s : Sess) (activity_key : String)
    (validate : Except Exc Unit) : Except Exc ActivityResponseDTO × Sess :=
  let body : Except Exc ActivityResponseDTO × Sess :=
    match ActivityRepository.get_by_key s.pending activity_key with
    | none => (.error (.http 404 "Activity not found"), s)
    | some a =>
      match projectRel s.pending a with
      | .error e => (.error e, s)
      | .ok proj =>
        match statusEnumerator s.pending.activityStatuses a.status_id with
        | .error e => (.error e, s)
        | .ok tok =>
          match validate with
          | .error e => (.error e, s)
          | .ok _ =>
            (.ok { activity_key := a.activity_key, project_key := proj.project_key,
                   due_date := a.due_date, description := a.description, status := tok }, s)
  (catchAllHandler body.1, body.2)

/-- Write an updated activity row back into the session. -/
def writeActivity (s : Sess) (row : ActivityRow) : Sess :=
  { s with pending := { s.pending with
      activities := s.pending.activities.map (fun a => if a.id == row.id then row else a) } }

/-- `ActivityService.update_activity` (activity.py lines 135-186): fetch by
key, 404 when absent, repository update (description, status, due_date),
commit, assemble and validate; catch-all tail. -/
def ActivityService.update_activity (s : Sess) (activity_key : String)
    (validate : Except Exc Unit) (dto_description dto_status : Option String)
    (dto_due_date : Option Nat) : Except Exc ActivityResponseDTO × Sess :=
  let body : Except Exc ActivityResponseDTO × Sess :=
    match ActivityRepository.get_by_key s.pending activity_key with
    | none => (.error (.http 404 "Activity not found"), s)
    | some a =>
      match ActivityRepository.update s.pending.activityStatuses a dto_description dto_status dto_due_date with
      | .error e => (.error e, s)
      | .ok a2 =>
        let s2 := commitS (writeActivity s a2)
        match projectRel s2.pending a2 with
        | .error e => (.error e, s2)
        | .ok proj =>
          match statusEnumerator s2.pending.activityStatuses a2.status_id with
          | .error e => (.error e, s2)
          | .ok tok =>
            match validate with
            | .error e => (.error e, s2)
            | .ok _ =>
              (.ok { activity_key := a2.activity_key, project_key := proj.project_key,
                     due_date := a2.due_date, description := a2.description, status := tok }, s2)
  (catchAllHandler body.1, body.2)

/-! ## Project service (src/src/services/project.py) -/

/-- `ProjectService.create_project` (project.py lines 39-93): resolve the
customer by key, raise HTTPException(404, "Customer not found") when absent
(before touching the project repository), repository create, commit,
assemble and validate. Guarded by `projectStyleHandler`, so the 404
propagates unchanged. -/
def ProjectService.create_project (s : Sess) (freshKey : String) (importTime : Nat)
    (validate : Except Exc Unit) (name : String) (customer_key : String)
    (due_date : Option Nat) : Except Exc ProjectResponseDTO × Sess :=
  let body : Except Exc ProjectResponseDTO × Sess :=
    match CustomerRepository.get_by_key s.pending customer_key with
    | none => (.error (.http 404 "Customer not found"), s)
    | some customer =>
      match ProjectRepository.create s freshKey importTime name customer due_date with
      | (.error e, s1) => (.error e, s1)
      | (.ok p, s1) =>
        let s2 := commitS s1
        match statusEnumerator s2.pending.projectStatuses p.status_id with
        | .error e => (.error e, s2)
        | .ok tok =>
          match validate with
          | .error e => (.error e, s2)
          | .ok _ =>
            (.ok { project_key := p.project_key, name := p.name, status := tok,
                   customer_key := customer.customer_key, due_date := p.due_date,
                   created_at := p.created_at, updated_at := p.updated_at }, s2)
  (projectStyleHandler body.1, body.2)

/-- `ProjectService.get_project` (project.py lines 95-139): fetch by key,
404 when absent (re-propagated by the HTTPException clause), assemble
(including the `project.customer.customer_key` relationship access) and
validate. -/
def ProjectService.get_project (s : Sess) (project_key : String)
    (validate : Except Exc Unit) : Except Exc ProjectResponseDTO × Sess :=
  let body : Except Exc ProjectResponseDTO × Sess :=
    match ProjectRepository.get_by_key s.pending project_key with
    | none => (.error (.http 404 "Project not found"), s)
    | some p =>
      match statusEnumerator s.pending.projectStatuses p.status_id with
      | .error e => (.error e, s)
      | .ok tok =>
        match customerRel s.pending p with
        | .error e => (.error e, s)
        | .ok cust =>
          match validate with
          | .error e => (.error e, s)
          | .ok _ =>
            (.ok { project_key := p.project_key, name := p.name, status := tok,
                   customer_key := cust.customer_key, due_date := p.due_date,
                   created_at := p.created_at, updated_at := p.updated_at }, s)
  (projectStyleHandler body.1, body.2)

/-- Write an updated project row back into the session (the ORM mutates
the fetched entity in place; rows are identified by primary key). -/
def writeProject (s : Sess) (row : ProjectRow) : Sess :=
  { s with pending := { s.pending with
      projects := s.pending.projects.map (fun p => if p.id == row.id then row else p) } }

/-- `ProjectService.update_project` (project.py lines 141-194): fetch by
key, raise HTTPException(404, "Project not found") when absent
(re-propagated by the HTTPException clause), repository update (name,
status, due_date), commit, assemble the response dict (the
`updated_project.status.enumerator` access, then the
`updated_project.customer.customer_key` relationship access, in the
order the dict literal evaluates them) and validate. -/
def ProjectService.update_project (s : Sess) (project_key : String)
    (validate : Except Exc Unit) (dto_name dto_status : Option String)
    (dto_due_date : Option Nat) : Except Exc ProjectResponseDTO × Sess :=
  let body : Except Exc ProjectResponseDTO × Sess :=
    match ProjectRepository.get_by_key s.pending project_key with
    | none => (.error (.http 404 "Project not found"), s)
    | some p =>
      match ProjectRepository.update s.pending.projectStatuses p dto_name dto_status dto_due_date with
      | .error e => (.error e, s)
      | .ok p2 =>
        let s2 := commitS (writeProject s p2)
        match statusEnumerator s2.pending.projectStatuses p2.status_id with
        | .error e => (.error e, s2)
        | .ok tok =>
          match customerRel s2.pending p2 with
          | .error e => (.error e, s2)
          | .ok cust =>
            match validate with
            | .error e => (.error e, s2)
            | .ok _ =>
              (.ok { project_key := p2.project_key, name := p2.name, status := tok,
                     customer_key := cust.customer_key, due_date := p2.due_date,
                     created_at := p2.created_at, updated_at := p2.updated_at }, s2)
  (projectStyleHandler body.1, body.2)

/-- Fallible map over a list in the `Except` monad, mirroring a Python
for-loop whose body can raise: the first raised exception aborts the loop. -/
def exceptMapList {α β : Type} (f : α → Except Exc β) : List α → Except Exc (List β)
  | [] => .ok []
  | x :: xs =>
    match f x with
    | .error e => .error e
    | .ok y =>
      match exceptMapList f xs with
      | .error e => .error e
      | .ok ys => .ok (y :: ys)

/-- Body of the per-activity dict built inside the list flow
(project.py lines 256-266): each access `activity.status.enumerator` can
raise. The dict keys beyond the `ActivityResponseDTO` fields are dropped by
validation. -/
def assembleListedActivity (db : DB) (proj : ProjectRow) (a : ActivityRow) :
    Except Exc ActivityResponseDTO :=
  match statusEnumerator db.activityStatuses a.status_id with
  | .error e => .error e
  | .ok tok =>
    .ok { activity_key := a.activity_key, project_key := proj.project_key,
          due_date := a.due_date, description := a.description, status := tok }

/-- Body of the per-project loop of the list flow (project.py lines
244-268): build the project dict (`project.status.enumerator` can raise),
optionally walk `project.activities` when `include_activities` is set (each
activity access can raise; the resulting "activities" key is an extra key
discarded by `ProjectResponseDTO.model_validate`), then validate. -/
def assembleListedProject (db : DB) (customer : CustomerRow) (include_activities : Bool)
    (validate : Except Exc Unit) (p : ProjectRow) : Except Exc ProjectResponseDTO :=
  match statusEnumerator db.projectStatuses p.status_id with
  | .error e => .error e
  | .ok tok =>
    match (if include_activities then
            match exceptMapList (assembleListedActivity db p) (activitiesRel db p) with
            | .error e => .error e
            | .ok _ => .ok ()
          else .ok () : Except Exc Unit) with
    | .error e => .error e
    | .ok _ =>
      match validate with
      | .error e => .error e
      | .ok _ =>
        .ok { project_key := p.project_key, name := p.name, status := tok,
              customer_key := customer.customer_key, due_date := p.due_date,
              created_at := p.created_at, updated_at := p.updated_at }

/-- `ProjectService.list_projects_by_customer` (project.py lines 196-288):
resolve the customer; when absent, the code at lines 228-231 evaluates
`status.HTTP_404_NOT_FOUND` where `status` is the *string parameter* of the
method (it shadows the imported `fastapi.status` module), so instead of an
HTTPException an `AttributeError` is raised; count with (customer.id,
status, due_date); `total_pages = (total_items + limit - 1) // limit`; list
with the identical arguments plus (limit, page); assemble each project;
return the paginated DTO. The tail handlers (lines 281-288) re-raise
HTTPExceptions and wrap anything else — hence the AttributeError — as the
500. -/
def ProjectService.list_projects_by_customer (s : Sess) (customer_key : String)
    (include_activities : Bool) (statusArg : String) (due_date : Option Nat)
    (limit page : Nat) (validate : Except Exc Unit) :
    Except Exc PaginatedProjectsResponseDTO × Sess :=
  let body : Except Exc PaginatedProjectsResponseDTO × Sess :=
    match CustomerRepository.get_by_key s.pending customer_key with
    | none =>
      (.error (.other "AttributeError: str object has no attribute HTTP_404_NOT_FOUND"), s)
    | some customer =>
      match ProjectRepository.count_projects_by_customer s.pending customer.id statusArg due_date with
      | .error e => (.error e, s)
      | .ok total_items =>
        let total_pages := (total_items + limit - 1) / limit
        match ProjectRepository.list_projects_by_customer s.pending customer.id statusArg due_date limit page with
        | .error e => (.error e, s)
        | .ok projects =>
          match exceptMapList (assembleListedProject s.pending customer include_activities validate) projects with
          | .error e => (.error e, s)
          | .ok project_responses =>
            (.ok { projects := project_responses, total_items := total_items,
                   total_pages := total_pages, current_page := page, limit := limit }, s)
  (projectStyleHandler body.1, body.2)

/-! ## Route layer defaults (src/src/api/routes/project.py) -/

/-- The `GET /projects/(customerKey)` route handler's query-parameter
defaulting (routes/project.py lines 120-132): `include_activities` defaults
to False, `status` defaults to "open", `due_date` to None, `limit` to 100
and `page` to 1; the handler then invokes the service once with those
values (line 154). -/
def listProjectsByCustomerRoute (s : Sess) (customer_key : String)
    (include_activities : Option Bool) (statusQ : Option String)
    (due_date : Option Nat) (limitQ pageQ : Option Nat) (validate : Except Exc Unit) :
    Except Exc PaginatedProjectsResponseDTO × Sess :=
  ProjectService.list_projects_by_customer s customer_key
    (include_activities.getD false) (statusQ.getD "open") due_date
    (limitQ.getD 100) (pageQ.getD 1) validate

/-! ## Connection manager (src/src/connector/mysql_connector.py) -/

/-- Observable session operations issued by `session_scope`. -/
inductive SessionOp where
  | commitOp
  | rollbackOp
  | closeOp
deriving Repr, DecidableEq

/-- `MySQLConnector.session_scope` (mysql_connector.py lines 58-74):

  session = cls.Session()
  try: yield session
  except Exception: session.rollback(); raise
  finally: session.close()

`body` is the outcome of the code run under the scope; `rollbackFailure`
says whether `session.rollback()` itself raises (and with what). The result
is the outcome surfaced to the caller together with the ordered list of
session operations performed. On a body exception the except clause runs
rollback and re-raises; if the rollback raises, that exception replaces the
re-raise; the finally clause closes the session in every path before
control leaves the scope. -/
def MySQLConnector.session_scope {α : Type} (body : Except Exc α)
    (rollbackFailure : Option Exc) : Except Exc α × List SessionOp :=
  match body with
  | .ok a => (.ok a, [.closeOp])
  | .error e =>
    match rollbackFailure with
    | none => (.error e, [.rollbackOp, .closeOp])
    | some e2 => (.error e2, [.rollbackOp, .closeOp])

/-! ## Column defaults of the timestamp columns (src/src/models) -/

/-- A SQLAlchemy column default/onupdate argument: either an already
evaluated constant value, or a callable invoked at statement execution
time. -/
inductive ColDefault where
  | constVal (v : Nat)
  | callNow
deriving Repr, DecidableEq

/-- How SQLAlchemy applies a default or onupdate argument when it executes
an INSERT or UPDATE at time `writeTime`: a constant is written as-is, a
callable is invoked now. -/
def applyColDefault (d : ColDefault) (writeTime : Nat) : Nat :=
  match d with
  | .constVal v => v
  | .callNow => writeTime

/-- models/project.py line 46: `created_at = Column(DateTime,
default=datetime.now(UTC))`. The expression `datetime.now(UTC)` is a call,
evaluated once when the class body runs at import time; the column default
is therefore the constant `importTime`, not a callable. -/
def Project.created_at_default (importTime : Nat) : ColDefault := .constVal importTime

/-- models/project.py line 47: the `default=datetime.now(UTC)` argument of
`updated_at`, likewise the import-time constant. -/
def Project.updated_at_default (importTime : Nat) : ColDefault := .constVal importTime

/-- models/project.py line 47: the `onupdate=datetime.now(UTC)` argument of
`updated_at`, likewise the import-time constant. -/
def Project.updated_at_onupdate (importTime : Nat) : ColDefault := .constVal importTime

/-- models/customer.py line 41: `created_at` default, the import-time
constant. -/
def Customer.created_at_default (importTime : Nat) : ColDefault := .constVal importTime

/-- models/customer.py line 42: `updated_at` onupdate, the import-time
constant. -/
def Customer.updated_at_onupdate (importTime : Nat) : ColDefault := .constVal importTime

/-- models/activity.py line 45: `created_at` default, the import-time
constant. -/
def Activity.created_at_default (importTime : Nat) : ColDefault := .constVal importTime

/-- models/activity.py line 46: `updated_at` onupdate, the import-time
constant. -/
def Activity.updated_at_onupdate (importTime : Nat) : ColDefault := .constVal importTime

/-- Modelled from the spec (section 3, "`updated_at` is refreshed on every
mutating write"): the intended onupdate behaviour writes the current time
of each mutating write, i.e. a callable default. Named for comparison with
the source definitions above. -/
def SpecModel.updated_at_onupdate : ColDefault := .callNow

/-! ## Concrete fixtures used by evaluations and witnesses -/

/-- An entirely empty database. -/
def emptyDB : DB :=
  { customerStatuses := [], projectStatuses := [], activityStatuses := []
    customers := [], projects := [], activities := [] }

/-- A session over the empty database. -/
def sEmpty : Sess := { durable := emptyDB, pending := emptyDB }

/-- A small populated database: the three status tables seeded, one
customer, three projects of that customer (two "open", one "closed"), no
activities. -/
def dbW : DB :=
  { customerStatuses := [{ id := 1, enumerator := "active" }]
    projectStatuses := [{ id := 1, enumerator := "open" }, { id := 2, enumerator := "closed" }]
    activityStatuses := [{ id := 1, enumerator := "not_started" }]
    customers := [{ id := 1, customer_key := "ck", status_id := 1, name := "Ada",
                    email := "ada@x.com", created_at := 0, updated_at := 0 }]
    projects := [{ id := 1, project_key := "pk1", customer_id := 1, status_id := 1,
                   name := "P1", due_date := some 10, created_at := 0, updated_at := 0 },
                 { id := 2, project_key := "pk2", customer_id := 1, status_id := 2,
                   name := "P2", due_date := some 20, created_at := 0, updated_at := 0 },
                 { id := 3, project_key := "pk3", customer_id := 1, status_id := 1,
                   name := "P3", due_date := none, created_at := 0, updated_at := 0 }]
    activities := [] }

/-- A session over `dbW` with nothing staged. -/
def sW : Sess := { durable := dbW, pending := dbW }

/-- A second populated database for the update-flow witnesses: one
customer, one open project, one not-started activity, and a second
activity status to update to. -/
def dbU : DB :=
  { customerStatuses := [{ id := 1, enumerator := "active" }]
    projectStatuses := [{ id := 1, enumerator := "open" }, { id := 2, enumerator := "closed" }]
    activityStatuses := [{ id := 1, enumerator := "not_started" },
                         { id := 2, enumerator := "in_progress" }]
    customers := [{ id := 1, customer_key := "ck", status_id := 1, name := "Ada",
                    email := "ada@x.com", created_at := 0, updated_at := 0 }]
    projects := [{ id := 1, project_key := "pk1", customer_id := 1, status_id := 1,
                   name := "P1", due_date := none, created_at := 0, updated_at := 0 }]
    activities := [{ id := 1, activity_key := "ak1", project_id := 1, status_id := 1,
                     due_date := none, description := "D", created_at := 0,
                     updated_at := 0 }] }

/-- A session over `dbU` with nothing staged. -/
def sU : Sess := { durable := dbU, pending := dbU }

/-- The filter pipeline that both `count_projects_by_customer` (lines
121-128) and `list_projects_by_customer` (lines 153-160) build — the two
code blocks are identical — named so the theorems can speak about the
filtered, consistently-ordered set the pagination ranges over. -/
def filteredProjectsQuery (db : DB) (customer_id : Nat) (statusTok : String)
    (due_date : Option Nat) : Except Exc (List ProjectRow) :=
  let query := db.projects.filter (fun p => p.customer_id == customer_id)
  let q1E : Except Exc (List ProjectRow) :=
    if statusTok != "" then
      match get_enumerator db.projectStatuses statusTok with
      | .error e => .error e
      | .ok stObj => .ok (query.filter (fun p => p.status_id == stObj.id))
    else .ok query
  match q1E with
  | .error e => .error e
  | .ok q1 =>
    let q2 : List ProjectRow := match due_date with
      | some cutoff => q1.filter (fun p =>
          match p.due_date with
          | some d => decide (d ≤ cutoff)
          | none => false)
      | none => q1
    .ok q2

/-! ## Theorems -/

/-- Helper: the count is the length of the shared filtered set. -/
theorem count_eq_filtered_length (db : DB) (cid : Nat) (st : String) (due : Option Nat) :
    ProjectRepository.count_projects_by_customer db cid st due
      = (filteredProjectsQuery db cid st due).map List.length := by
  unfold ProjectRepository.count_projects_by_customer filteredProjectsQuery
  by_cases hs : (st != "") = true
  · simp only [hs, if_true]
    cases hg : get_enumerator db.projectStatuses st with
    | error e => simp [hg, Except.map]
    | ok stObj => cases due <;> simp [hg, Except.map]
  · simp only [hs, if_false]
    cases due <;> simp [hs, Except.map]

/-- Helper: the listing is the drop/take pagination window over the shared
filtered set. -/
theorem list_eq_filtered_window (db : DB) (cid : Nat) (st : String) (due : Option Nat)
    (limit page : Nat) :
    ProjectRepository.list_projects_by_customer db cid st due limit page
      = (filteredProjectsQuery db cid st due).map
          (fun l => (l.drop ((page - 1) * limit)).take limit) := by
  unfold ProjectRepository.list_projects_by_customer filteredProjectsQuery
  by_cases hs : (st != "") = true
  · simp only [hs, if_true]
    cases hg : get_enumerator db.projectStatuses st with
    | error e => simp [hg, Except.map]
    | ok stObj => cases due <;> simp [hg, Except.map]
  · simp only [hs, if_false]
    cases due <;> simp [hs, Except.map]

/-- Helper: `(n + l - 1) / l` is the ceiling of `n / l`: it covers `n` and
is the least page count doing so. -/
theorem ceil_div_spec (n l : Nat) (hl : 0 < l) :
    n ≤ ((n + l - 1) / l) * l ∧ ∀ k, n ≤ k * l → (n + l - 1) / l ≤ k := by
  have key : ∀ k, (n + l - 1) / l ≤ k ↔ n ≤ k * l := by
    intro k
    constructor
    · intro h
      by_contra hc
      push_neg at hc
      have h2 : k + 1 ≤ (n + l - 1) / l := by
        rw [Nat.le_div_iff_mul_le hl]
        have : (k + 1) * l = k * l + l := by ring
        omega
      omega
    · intro h
      have h2 : (n + l - 1) / l < k + 1 := by
        rw [Nat.div_lt_iff_lt_mul hl]
        have : (k + 1) * l = k * l + l := by ring
        omega
      omega
  exact ⟨(key _).mp le_rfl, fun k hk => (key k).mpr hk⟩

/-- Helper: concatenating the `take k` windows of `P` consecutive pages
reassembles the whole list, provided `P` pages suffice to cover it. -/
theorem join_chunks {α : Type} (k : Nat) :
    ∀ (P : Nat) (l : List α), l.length ≤ P * k →
      ((List.range P).map (fun i => (l.drop (i * k)).take k)).flatten = l := by
  intro P
  induction P with
  | zero =>
    intro l hl
    have : l = [] := by
      cases l with
      | nil => rfl
      | cons x xs => simp at hl
    subst this
    simp
  | succ P ih =>
    intro l hl
    rw [List.range_succ_eq_map]
    simp only [List.map_cons, List.flatten_cons, List.map_map]
    have hdrop : ((List.range P).map ((fun i => (l.drop (i * k)).take k) ∘ Nat.succ))
        = ((List.range P).map (fun i => ((l.drop k).drop (i * k)).take k)) := by
      apply List.map_congr_left
      intro i _
      simp only [Function.comp]
      congr 1
      rw [List.drop_drop]
      congr 1
      simp only [Nat.succ_eq_add_one]
      ring
    rw [hdrop, ih (l.drop k) (by simp [Nat.succ_mul] at hl ⊢; omega)]
    simp

/-- C5: pagination arithmetic. Whenever the list service succeeds, the
returned `total_pages` is the least number of pages of size `limit`
covering `total_items` (i.e. the ceiling of their quotient); at the
repository, page 1 with limit N is the `[0, N)` window of the filtered,
consistently-ordered set, and a page whose offset is at or past the end of
that set yields zero entities rather than an error. -/
theorem c5_pagination
    (s : Sess) (ck : String) (inc : Bool) (stTok : String) (due : Option Nat)
    (limit page : Nat) (v : Except Exc Unit) (resp : PaginatedProjectsResponseDTO)
    (hl : 0 < limit) (_hp : 0 < page)
    (hresp : (ProjectService.list_projects_by_customer s ck inc stTok due limit page v).1
      = .ok resp) :
    (resp.total_items ≤ resp.total_pages * limit
      ∧ ∀ k, resp.total_items ≤ k * limit → resp.total_pages ≤ k)
  ∧ (∀ (db : DB) (cid n : Nat) (F : List ProjectRow),
      ProjectRepository.count_projects_by_customer db cid stTok due = .ok n →
      ProjectRepository.list_projects_by_customer db cid stTok due (n + 1) 1 = .ok F →
        ProjectRepository.list_projects_by_customer db cid stTok due limit 1
          = .ok (F.take limit)
      ∧ (n ≤ (page - 1) * limit →
          ProjectRepository.list_projects_by_customer db cid stTok due limit page
            = .ok [])) := by
  constructor
  · simp only [ProjectService.list_projects_by_customer] at hresp
    cases hc : CustomerRepository.get_by_key s.pending ck with
    | none => simp only [hc] at hresp; simp [projectStyleHandler] at hresp
    | some customer =>
      simp only [hc] at hresp
      cases hcount : ProjectRepository.count_projects_by_customer s.pending customer.id stTok due with
      | error e => simp only [hcount] at hresp; cases e <;> simp [projectStyleHandler] at hresp
      | ok total =>
        simp only [hcount] at hresp
        cases hlist : ProjectRepository.list_projects_by_customer s.pending customer.id stTok due limit page with
        | error e => simp only [hlist] at hresp; cases e <;> simp [projectStyleHandler] at hresp
        | ok projects =>
          simp only [hlist] at hresp
          cases hmap : exceptMapList (assembleListedProject s.pending customer inc v) projects with
          | error e => simp only [hmap] at hresp; cases e <;> simp [projectStyleHandler] at hresp
          | ok prs =>
            simp only [hmap, projectStyleHandler] at hresp
            injection hresp with h2
            subst h2
            exact ceil_div_spec total limit hl
  · intro db cid n F hcount hfull
    rw [count_eq_filtered_length] at hcount
    rw [list_eq_filtered_window] at hfull
    cases hF0 : filteredProjectsQuery db cid stTok due with
    | error e => rw [hF0] at hcount; simp [Except.map] at hcount
    | ok F0 =>
      rw [hF0] at hcount hfull
      simp only [Except.map, Except.ok.injEq] at hcount hfull
      have hn : F0.length = n := hcount
      have hF : F = F0 := by
        rw [← hfull]
        have h0 : (1 - 1) * (n + 1) = 0 := by omega
        rw [h0, List.drop_zero]
        exact List.take_of_length_le (by omega)
      constructor
      · rw [list_eq_filtered_window, hF0, hF]
        have h0 : (1 - 1) * limit = 0 := by omega
        simp [Except.map, h0]
      · intro hoff
        rw [list_eq_filtered_window, hF0]
        have hnil : F0.drop ((page - 1) * limit) = [] :=
          List.drop_eq_nil_of_le (by omega)
        simp [Except.map, hnil]

/-- Helper: a successful `get_enumerator` returns a member of the table
whose enumerator is the requested token. -/
theorem get_enumerator_ok {table : List StatusRow} {tok : String} {st : StatusRow}
    (h : get_enumerator table tok = .ok st) : st ∈ table ∧ st.enumerator = tok := by
  unfold get_enumerator at h
  cases hf : table.filter (fun r => r.enumerator == tok) with
  | nil => rw [hf] at h; exact absurd h (by simp)
  | cons r rest =>
    cases rest with
    | nil =>
      rw [hf] at h
      have hst : r = st := by simpa using h
      have hr : r ∈ table.filter (fun x => x.enumerator == tok) := by
        rw [hf]; exact List.mem_cons_self _ _
      have hm := List.mem_filter.mp hr
      rw [← hst]
      exact ⟨hm.1, by simpa using hm.2⟩
    | cons r2 rest2 => rw [hf] at h; exact absurd h (by simp)

/-- C1: the claim says every service method re-propagates its internally
raised 404 unchanged and wraps only other exceptions as the 500. That holds
for the ProjectService methods (they have the `except HTTPException` clause)
but fails for CustomerService and ActivityService: their only handler is
`except Exception`, which also catches the 404 `HTTPException` and rewraps
it as HTTP 500 "An internal error occurred". Evaluated on an empty store:
every customer/activity not-found path surfaces the 500, while the project
not-found path surfaces the 404. -/
theorem c1_customer_activity_404_wrapped_as_500 :
    (CustomerService.get_customer sEmpty "missing" (.ok ())).1
      = .error (.http 500 "An internal error occurred")
  ∧ (CustomerService.update_customer sEmpty "missing" (.ok ()) none none none).1
      = .error (.http 500 "An internal error occurred")
  ∧ (ActivityService.create_activity sEmpty "fresh" 0 (.ok ()) "D" "missing" none).1
      = .error (.http 500 "An internal error occurred")
  ∧ (ActivityService.get_activity sEmpty "missing" (.ok ())).1
      = .error (.http 500 "An internal error occurred")
  ∧ (ActivityService.update_activity sEmpty "missing" (.ok ()) none none none).1
      = .error (.http 500 "An internal error occurred")
  ∧ (ProjectService.get_project sEmpty "missing" (.ok ())).1
      = .error (.http 404 "Project not found") :=
  ⟨rfl, rfl, rfl, rfl, rfl, rfl⟩

/-- C2: creating a project under a missing customer fails with the 404 and
leaves the session untouched (nothing staged, nothing committed); creating
an activity under a missing project also stages nothing and fails *before*
the repository create runs, but the surfaced error is the wrapped 500, not
the not-found error the claim (and test_activity_service.py line 75)
expects. -/
theorem c2_create_under_missing_parent :
    ProjectService.create_project sEmpty "pk" 0 (.ok ()) "P" "does-not-exist" none
      = (.error (.http 404 "Customer not found"), sEmpty)
  ∧ ActivityService.create_activity sEmpty "ak" 0 (.ok ()) "D" "does-not-exist" none
      = (.error (.http 500 "An internal error occurred"), sEmpty) :=
  ⟨rfl, rfl⟩

/-- C3: listing projects of a missing customer does not surface the 404
naming Customer: the `status` parameter shadows the `fastapi.status` module
at services/project.py line 229, so building the intended HTTPException
raises AttributeError, which the catch-all turns into the 500. -/
theorem c3_list_missing_customer_is_500 :
    (ProjectService.list_projects_by_customer sEmpty "missing" false "open" none 100 1 (.ok ())).1
      = .error (.http 500 "An internal error occurred") := rfl

/-- C7: the claim says every mutating write sets `updated_at` to the time
of that write and `created_at` to the creation time. The column arguments
are `datetime.now(UTC)` *called* at import time, so inserts and updates at
times 3, 5 and 9 all write the import-time constant 0, never the write
time; the spec-intended callable default would write the write time. -/
theorem c7_timestamps_are_import_time_constants :
    applyColDefault (Project.updated_at_onupdate 0) 5 = 0
  ∧ applyColDefault (Project.updated_at_onupdate 0) 9 = 0
  ∧ applyColDefault (Project.updated_at_onupdate 0) 5 ≠ 5
  ∧ applyColDefault (Customer.created_at_default 0) 3 ≠ 3
  ∧ applyColDefault (Customer.updated_at_onupdate 0) 5 ≠ 5
  ∧ applyColDefault (Activity.created_at_default 0) 3 ≠ 3
  ∧ applyColDefault (Activity.updated_at_onupdate 0) 5 ≠ 5
  ∧ applyColDefault (Project.created_at_default 0) 3 = 0
  ∧ applyColDefault SpecModel.updated_at_onupdate 5 = 5 := by
  refine ⟨rfl, rfl, ?_, ?_, ?_, ?_, ?_, rfl, rfl⟩ <;> decide

/-- C8: `session_scope` never commits; on a body exception it rolls back
and re-raises the same exception; the session is closed in every path
(success, exception, and even when the rollback itself raises, in which
case the rollback's exception propagates), and the close is the final
session operation before control leaves the scope. -/
theorem c8_session_scope_contract {α : Type} (body : Except Exc α)
    (rollbackFailure : Option Exc) :
    SessionOp.commitOp ∉ (MySQLConnector.session_scope body rollbackFailure).2
  ∧ (MySQLConnector.session_scope body rollbackFailure).2.getLast? = some SessionOp.closeOp
  ∧ (∀ a, body = .ok a → MySQLConnector.session_scope body rollbackFailure = (.ok a, [.closeOp]))
  ∧ (∀ e, body = .error e →
      SessionOp.rollbackOp ∈ (MySQLConnector.session_scope body rollbackFailure).2)
  ∧ (∀ e, body = .error e → rollbackFailure = none →
      (MySQLConnector.session_scope body rollbackFailure).1 = .error e)
  ∧ (∀ e e2, body = .error e → rollbackFailure = some e2 →
      (MySQLConnector.session_scope body rollbackFailure).1 = .error e2) := by
  cases body <;> cases rollbackFailure <;>
    simp [MySQLConnector.session_scope]

/-- Witness for C8 at a concrete failing body with a successful rollback:
the same exception is re-raised after a rollback, and the ops end with the
close. -/
theorem c8_session_scope_contract_witness :
    (MySQLConnector.session_scope (Except.error (Exc.other "boom") : Except Exc Unit) none).1
      = .error (.other "boom")
  ∧ SessionOp.rollbackOp ∈
      (MySQLConnector.session_scope (Except.error (Exc.other "boom") : Except Exc Unit) none).2
  ∧ (MySQLConnector.session_scope (Except.error (Exc.other "boom") : Except Exc Unit) none).2.getLast?
      = some SessionOp.closeOp := by
  have h := c8_session_scope_contract (Except.error (Exc.other "boom") : Except Exc Unit) none
  exact ⟨h.2.2.2.2.1 _ rfl rfl, h.2.2.2.1 _ rfl, h.2.1⟩

/-- C4: partial-update semantics of the three repository `update` methods:
a field passed as `None` or as the empty string (falsy in Python, hence
"not supplied") keeps its prior stored value; a field supplied with a
non-empty value ends up equal to that value, the status taking the row its
token resolves to in the status lookup table. -/
theorem c4_partial_update_frame :
    (∀ (tbl : List StatusRow) (c : CustomerRow) (name email statusTok : Option String)
        (r : CustomerRow),
      CustomerRepository.update tbl c name email statusTok = .ok r →
        (pyTruthy name = false → r.name = c.name)
      ∧ (∀ v, name = some v → v ≠ "" → r.name = v)
      ∧ (pyTruthy email = false → r.email = c.email)
      ∧ (∀ v, email = some v → v ≠ "" → r.email = v)
      ∧ (pyTruthy statusTok = false → r.status_id = c.status_id)
      ∧ (∀ v st, statusTok = some v → v ≠ "" → get_enumerator tbl v = .ok st →
          r.status_id = st.id))
  ∧ (∀ (tbl : List StatusRow) (p : ProjectRow) (name statusTok : Option String)
        (due : Option Nat) (r : ProjectRow),
      ProjectRepository.update tbl p name statusTok due = .ok r →
        (pyTruthy name = false → r.name = p.name)
      ∧ (∀ v, name = some v → v ≠ "" → r.name = v)
      ∧ (due = none → r.due_date = p.due_date)
      ∧ (∀ d, due = some d → r.due_date = some d)
      ∧ (pyTruthy statusTok = false → r.status_id = p.status_id)
      ∧ (∀ v st, statusTok = some v → v ≠ "" → get_enumerator tbl v = .ok st →
          r.status_id = st.id))
  ∧ (∀ (tbl : List StatusRow) (a : ActivityRow) (description statusTok : Option String)
        (due : Option Nat) (r : ActivityRow),
      ActivityRepository.update tbl a description statusTok due = .ok r →
        (pyTruthy description = false → r.description = a.description)
      ∧ (∀ v, description = some v → v ≠ "" → r.description = v)
      ∧ (due = none → r.due_date = a.due_date)
      ∧ (∀ d, due = some d → r.due_date = some d)
      ∧ (pyTruthy statusTok = false → r.status_id = a.status_id)
      ∧ (∀ v st, statusTok = some v → v ≠ "" → get_enumerator tbl v = .ok st →
          r.status_id = st.id)) := by
  refine ⟨?_, ?_, ?_⟩
  · intro tbl c name email statusTok r h
    simp only [CustomerRepository.update] at h
    by_cases hs : pyTruthy statusTok = true
    · rw [if_pos hs] at h
      cases hg : get_enumerator tbl (statusTok.getD "") with
      | error e => rw [hg] at h; cases h
      | ok st' =>
        rw [hg] at h
        injection h with h2
        subst h2
        refine ⟨?_, ?_, ?_, ?_, ?_, ?_⟩
        · intro hn; by_cases he : pyTruthy email = true <;> simp [hn, he]
        · intro v hv hne
          subst hv
          have hn : pyTruthy (some v) = true := by simp [pyTruthy, hne]
          by_cases he : pyTruthy email = true <;> simp [hn, he]
        · intro hemail; by_cases hn : pyTruthy name = true <;> simp [hemail, hn]
        · intro v hv hne
          subst hv
          have he : pyTruthy (some v) = true := by simp [pyTruthy, hne]
          by_cases hn : pyTruthy name = true <;> simp [he, hn]
        · intro hfalse; rw [hs] at hfalse; cases hfalse
        · intro v st hv hne hge
          subst hv
          simp only [Option.getD_some] at hg
          rw [hge] at hg
          injection hg with hg2
          simp [hg2]
    · rw [if_neg hs] at h
      injection h with h2
      subst h2
      refine ⟨?_, ?_, ?_, ?_, ?_, ?_⟩
      · intro hn; by_cases he : pyTruthy email = true <;> simp [hn, he]
      · intro v hv hne
        subst hv
        have hn : pyTruthy (some v) = true := by simp [pyTruthy, hne]
        by_cases he : pyTruthy email = true <;> simp [hn, he]
      · intro hemail; by_cases hn : pyTruthy name = true <;> simp [hemail, hn]
      · intro v hv hne
        subst hv
        have he : pyTruthy (some v) = true := by simp [pyTruthy, hne]
        by_cases hn : pyTruthy name = true <;> simp [he, hn]
      · intro _
        by_cases hn : pyTruthy name = true <;> by_cases he : pyTruthy email = true <;>
          simp [hn, he]
      · intro v st hv hne hge
        subst hv
        exact absurd (by simp [pyTruthy, hne]) hs
  · intro tbl p name statusTok due r h
    simp only [ProjectRepository.update] at h
    by_cases hs : pyTruthy statusTok = true
    · rw [if_pos hs] at h
      cases hg : get_enumerator tbl (statusTok.getD "") with
      | error e => rw [hg] at h; cases h
      | ok st' =>
        rw [hg] at h
        injection h with h2
        subst h2
        refine ⟨?_, ?_, ?_, ?_, ?_, ?_⟩
        · intro hn; cases due <;> simp [hn]
        · intro v hv hne
          subst hv
          have hn : pyTruthy (some v) = true := by simp [pyTruthy, hne]
          cases due <;> simp [hn]
        · intro hd; subst hd; by_cases hn : pyTruthy name = true <;> simp [hn]
        · intro d hd; subst hd; by_cases hn : pyTruthy name = true <;> simp [hn]
        · intro hfalse; rw [hs] at hfalse; cases hfalse
        · intro v st hv hne hge
          subst hv
          simp only [Option.getD_some] at hg
          rw [hge] at hg
          injection hg with hg2
          simp [hg2]
    · rw [if_neg hs] at h
      injection h with h2
      subst h2
      refine ⟨?_, ?_, ?_, ?_, ?_, ?_⟩
      · intro hn; cases due <;> simp [hn]
      · intro v hv hne
        subst hv
        have hn : pyTruthy (some v) = true := by simp [pyTruthy, hne]
        cases due <;> simp [hn]
      · intro hd; subst hd; by_cases hn : pyTruthy name = true <;> simp [hn]
      · intro d hd; subst hd; by_cases hn : pyTruthy name = true <;> simp [hn]
      · intro _
        by_cases hn : pyTruthy name = true <;> cases due <;> simp [hn]
      · intro v st hv hne hge
        subst hv
        exact absurd (by simp [pyTruthy, hne]) hs
  · intro tbl a description statusTok due r h
    simp only [ActivityRepository.update] at h
    by_cases hs : pyTruthy statusTok = true
    · rw [if_pos hs] at h
      cases hg : get_enumerator tbl (statusTok.getD "") with
      | error e => rw [hg] at h; cases h
      | ok st' =>
        rw [hg] at h
        injection h with h2
        subst h2
        refine ⟨?_, ?_, ?_, ?_, ?_, ?_⟩
        · intro hn; cases due <;> simp [hn]
        · intro v hv hne
          subst hv
          have hn : pyTruthy (some v) = true := by simp [pyTruthy, hne]
          cases due <;> simp [hn]
        · intro hd; subst hd; by_cases hn : pyTruthy description = true <;> simp [hn]
        · intro d hd; subst hd; by_cases hn : pyTruthy description = true <;> simp [hn]
        · intro hfalse; rw [hs] at hfalse; cases hfalse
        · intro v st hv hne hge
          subst hv
          simp only [Option.getD_some] at hg
          rw [hge] at hg
          injection hg with hg2
          simp [hg2]
    · rw [if_neg hs] at h
      injection h with h2
      subst h2
      refine ⟨?_, ?_, ?_, ?_, ?_, ?_⟩
      · intro hn; cases due <;> simp [hn]
      · intro v hv hne
        subst hv
        have hn : pyTruthy (some v) = true := by simp [pyTruthy, hne]
        cases due <;> simp [hn]
      · intro hd; subst hd; by_cases hn : pyTruthy description = true <;> simp [hn]
      · intro d hd; subst hd; by_cases hn : pyTruthy description = true <;> simp [hn]
      · intro _
        by_cases hn : pyTruthy description = true <;> cases due <;> simp [hn]
      · intro v st hv hne hge
        subst hv
        exact absurd (by simp [pyTruthy, hne]) hs

/-- Witness for C4: updating a customer with a new name, an empty-string
email and a resolvable status token changes exactly the name and the
status. -/
theorem c4_partial_update_frame_witness :
    CustomerRepository.update [{ id := 7, enumerator := "inactive" }]
        { id := 1, customer_key := "ck", status_id := 1, name := "Ada",
          email := "ada@x.com", created_at := 0, updated_at := 0 }
        (some "Grace") (some "") (some "inactive")
      = .ok { id := 1, customer_key := "ck", status_id := 7, name := "Grace",
              email := "ada@x.com", created_at := 0, updated_at := 0 }
  ∧ (let r := { id := 1, customer_key := "ck", status_id := 7, name := "Grace",
                email := "ada@x.com", created_at := 0, updated_at := 0 : CustomerRow }
     r.name = "Grace" ∧ r.email = "ada@x.com" ∧ r.status_id = 7) := by
  have h := c4_partial_update_frame.1 [{ id := 7, enumerator := "inactive" }]
    { id := 1, customer_key := "ck", status_id := 1, name := "Ada",
      email := "ada@x.com", created_at := 0, updated_at := 0 }
    (some "Grace") (some "") (some "inactive")
    { id := 1, customer_key := "ck", status_id := 7, name := "Grace",
      email := "ada@x.com", created_at := 0, updated_at := 0 } rfl
  exact ⟨rfl, h.2.1 "Grace" rfl (by decide), h.2.2.1 rfl,
    h.2.2.2.2.2 "inactive" { id := 7, enumerator := "inactive" } rfl (by decide) rfl⟩

/-- Helper: the only exception `statusEnumerator` raises is the
AttributeError, never an HTTPException. -/
theorem statusEnumerator_error_other {tbl : List StatusRow} {i : Nat} {e : Exc}
    (h : statusEnumerator tbl i = .error e) :
    e = .other "AttributeError: NoneType has no attribute enumerator" := by
  unfold statusEnumerator at h
  cases hf : tbl.filter (fun r => r.id == i) with
  | nil => rw [hf] at h; injection h with h2; exact h2.symm
  | cons r rest => rw [hf] at h; cases h

/-- C9: in every create and update service flow the repository commit is
issued before the response object is assembled, so when response assembly
(pydantic validation, modelled by the failing `validate` argument) raises
after a successful commit, the client receives the generic 500 while the
created or updated row is already durably committed. Stated for all six
flows: the three creates and the three updates. -/
theorem c9_commit_precedes_response_assembly :
    (∀ (s : Sess) (freshKey : String) (importTime : Nat) (e : Exc)
        (name email : String) (st : StatusRow),
      get_enumerator s.pending.customerStatuses "active" = .ok st →
        (CustomerService.create_customer s freshKey importTime (.error e) name email).1
          = .error (.http 500 "An internal error occurred")
      ∧ (CustomerService.create_customer s freshKey importTime (.error e) name email).2.durable.customers
          = s.pending.customers ++
            [{ id := s.pending.customers.length, customer_key := freshKey,
               status_id := st.id, name := name, email := email,
               created_at := importTime, updated_at := importTime }])
  ∧ (∀ (s : Sess) (freshKey : String) (importTime : Nat) (e : Exc)
        (description project_key : String) (due : Option Nat)
        (proj : ProjectRow) (st : StatusRow),
      ProjectRepository.get_by_key s.pending project_key = some proj →
      get_enumerator s.pending.activityStatuses "not_started" = .ok st →
        (ActivityService.create_activity s freshKey importTime (.error e) description project_key due).1
          = .error (.http 500 "An internal error occurred")
      ∧ (ActivityService.create_activity s freshKey importTime (.error e) description project_key due).2.durable.activities
          = s.pending.activities ++
            [{ id := s.pending.activities.length, activity_key := freshKey,
               project_id := proj.id, status_id := st.id, due_date := due,
               description := description, created_at := importTime,
               updated_at := importTime }])
  ∧ (∀ (s : Sess) (freshKey : String) (importTime : Nat) (msg : String)
        (name customer_key : String) (due : Option Nat)
        (customer : CustomerRow) (st : StatusRow),
      CustomerRepository.get_by_key s.pending customer_key = some customer →
      get_enumerator s.pending.projectStatuses "open" = .ok st →
        (ProjectService.create_project s freshKey importTime (.error (.other msg)) name customer_key due).1
          = .error (.http 500 "An internal error occurred")
      ∧ (ProjectService.create_project s freshKey importTime (.error (.other msg)) name customer_key due).2.durable.projects
          = s.pending.projects ++
            [{ id := s.pending.projects.length, project_key := freshKey,
               customer_id := customer.id, status_id := st.id, name := name,
               due_date := due, created_at := importTime, updated_at := importTime }])
  ∧ (∀ (s : Sess) (customer_key : String) (e : Exc) (dn de ds : Option String)
        (c c2 : CustomerRow),
      CustomerRepository.get_by_key s.pending customer_key = some c →
      CustomerRepository.update s.pending.customerStatuses c dn de ds = .ok c2 →
        (CustomerService.update_customer s customer_key (.error e) dn de ds).1
          = .error (.http 500 "An internal error occurred")
      ∧ (CustomerService.update_customer s customer_key (.error e) dn de ds).2.durable.customers
          = s.pending.customers.map (fun x => if x.id == c2.id then c2 else x))
  ∧ (∀ (s : Sess) (activity_key : String) (e : Exc) (dd ds : Option String)
        (ddu : Option Nat) (a a2 : ActivityRow),
      ActivityRepository.get_by_key s.pending activity_key = some a →
      ActivityRepository.update s.pending.activityStatuses a dd ds ddu = .ok a2 →
        (ActivityService.update_activity s activity_key (.error e) dd ds ddu).1
          = .error (.http 500 "An internal error occurred")
      ∧ (ActivityService.update_activity s activity_key (.error e) dd ds ddu).2.durable.activities
          = s.pending.activities.map (fun x => if x.id == a2.id then a2 else x))
  ∧ (∀ (s : Sess) (project_key : String) (msg : String) (dn ds : Option String)
        (ddu : Option Nat) (p p2 : ProjectRow),
      ProjectRepository.get_by_key s.pending project_key = some p →
      ProjectRepository.update s.pending.projectStatuses p dn ds ddu = .ok p2 →
        (ProjectService.update_project s project_key (.error (.other msg)) dn ds ddu).1
          = .error (.http 500 "An internal error occurred")
      ∧ (ProjectService.update_project s project_key (.error (.other msg)) dn ds ddu).2.durable.projects
          = s.pending.projects.map (fun x => if x.id == p2.id then p2 else x)) := by
  refine ⟨?_, ?_, ?_, ?_, ?_, ?_⟩
  · intro s freshKey importTime e name email st hst
    constructor
    · cases hse : statusEnumerator s.pending.customerStatuses st.id with
      | error e2 =>
        simp [CustomerService.create_customer, CustomerRepository.create, hst, commitS,
              catchAllHandler, hse]
      | ok tok =>
        simp [CustomerService.create_customer, CustomerRepository.create, hst, commitS,
              catchAllHandler, hse]
    · cases hse : statusEnumerator s.pending.customerStatuses st.id with
      | error e2 =>
        simp [CustomerService.create_customer, CustomerRepository.create, hst, commitS, hse]
      | ok tok =>
        simp [CustomerService.create_customer, CustomerRepository.create, hst, commitS, hse]
  · intro s freshKey importTime e description project_key due proj st hpk hst
    constructor
    · cases hse : statusEnumerator s.pending.activityStatuses st.id with
      | error e2 =>
        simp [ActivityService.create_activity, ActivityRepository.create, hpk, hst, commitS,
              catchAllHandler, hse]
      | ok tok =>
        simp [ActivityService.create_activity, ActivityRepository.create, hpk, hst, commitS,
              catchAllHandler, hse]
    · cases hse : statusEnumerator s.pending.activityStatuses st.id with
      | error e2 =>
        simp [ActivityService.create_activity, ActivityRepository.create, hpk, hst, commitS, hse]
      | ok tok =>
        simp [ActivityService.create_activity, ActivityRepository.create, hpk, hst, commitS, hse]
  · intro s freshKey importTime msg name customer_key due customer st hck hst
    constructor
    · cases hse : statusEnumerator s.pending.projectStatuses st.id with
      | error e2 =>
        have he := statusEnumerator_error_other hse
        subst he
        simp [ProjectService.create_project, ProjectRepository.create, hck, hst, commitS,
              projectStyleHandler, hse]
      | ok tok =>
        simp [ProjectService.create_project, ProjectRepository.create, hck, hst, commitS,
              projectStyleHandler, hse]
    · cases hse : statusEnumerator s.pending.projectStatuses st.id with
      | error e2 =>
        simp [ProjectService.create_project, ProjectRepository.create, hck, hst, commitS, hse]
      | ok tok =>
        simp [ProjectService.create_project, ProjectRepository.create, hck, hst, commitS, hse]
  · intro s customer_key e dn de ds c c2 hck hup
    constructor
    · cases hse : statusEnumerator s.pending.customerStatuses c2.status_id with
      | error e2 =>
        simp [CustomerService.update_customer, hck, hup, commitS, writeCustomer,
              catchAllHandler, hse]
      | ok tok =>
        simp [CustomerService.update_customer, hck, hup, commitS, writeCustomer,
              catchAllHandler, hse]
    · cases hse : statusEnumerator s.pending.customerStatuses c2.status_id with
      | error e2 =>
        simp [CustomerService.update_customer, hck, hup, commitS, writeCustomer, hse]
      | ok tok =>
        simp [CustomerService.update_customer, hck, hup, commitS, writeCustomer, hse]
  · intro s activity_key e dd ds ddu a a2 hga hup
    constructor
    · cases hf : s.pending.projects.filter (fun p => p.id == a2.project_id) with
      | nil =>
        simp [ActivityService.update_activity, hga, hup, commitS, writeActivity,
              catchAllHandler, projectRel, hf]
      | cons proj rest =>
        cases hse : statusEnumerator s.pending.activityStatuses a2.status_id with
        | error e2 =>
          simp [ActivityService.update_activity, hga, hup, commitS, writeActivity,
                catchAllHandler, projectRel, hf, hse]
        | ok tok =>
          simp [ActivityService.update_activity, hga, hup, commitS, writeActivity,
                catchAllHandler, projectRel, hf, hse]
    · cases hf : s.pending.projects.filter (fun p => p.id == a2.project_id) with
      | nil =>
        simp [ActivityService.update_activity, hga, hup, commitS, writeActivity,
              projectRel, hf]
      | cons proj rest =>
        cases hse : statusEnumerator s.pending.activityStatuses a2.status_id with
        | error e2 =>
          simp [ActivityService.update_activity, hga, hup, commitS, writeActivity,
                projectRel, hf, hse]
        | ok tok =>
          simp [ActivityService.update_activity, hga, hup, commitS, writeActivity,
                projectRel, hf, hse]
  · intro s project_key msg dn ds ddu p p2 hgp hup
    constructor
    · cases hse : statusEnumerator s.pending.projectStatuses p2.status_id with
      | error e2 =>
        have he := statusEnumerator_error_other hse
        subst he
        simp [ProjectService.update_project, hgp, hup, commitS, writeProject,
              projectStyleHandler, hse]
      | ok tok =>
        cases hcr : s.pending.customers.filter (fun c => c.id == p2.customer_id) with
        | nil =>
          simp [ProjectService.update_project, hgp, hup, commitS, writeProject,
                projectStyleHandler, customerRel, hse, hcr]
        | cons cust rest =>
          simp [ProjectService.update_project, hgp, hup, commitS, writeProject,
                projectStyleHandler, customerRel, hse, hcr]
    · cases hse : statusEnumerator s.pending.projectStatuses p2.status_id with
      | error e2 =>
        simp [ProjectService.update_project, hgp, hup, commitS, writeProject, hse]
      | ok tok =>
        cases hcr : s.pending.customers.filter (fun c => c.id == p2.customer_id) with
        | nil =>
          simp [ProjectService.update_project, hgp, hup, commitS, writeProject,
                customerRel, hse, hcr]
        | cons cust rest =>
          simp [ProjectService.update_project, hgp, hup, commitS, writeProject,
                customerRel, hse, hcr]

/-- Witness for C9 on the populated fixtures, with a validation step that
raises in each of the six flows: the surfaced errors are the opaque 500s
even though the rows were committed. -/
theorem c9_commit_precedes_response_assembly_witness :
    (CustomerService.create_customer sW "fk" 0 (.error (.other "validation boom")) "N" "E").1
      = .error (.http 500 "An internal error occurred")
  ∧ (ActivityService.create_activity sW "ak" 0 (.error (.other "validation boom")) "D" "pk1" none).1
      = .error (.http 500 "An internal error occurred")
  ∧ (ProjectService.create_project sU "pk9" 0 (.error (.other "validation boom")) "NP" "ck" none).1
      = .error (.http 500 "An internal error occurred")
  ∧ (CustomerService.update_customer sU "ck" (.error (.other "validation boom"))
        (some "Grace") none none).1
      = .error (.http 500 "An internal error occurred")
  ∧ (ActivityService.update_activity sU "ak1" (.error (.other "validation boom"))
        none (some "in_progress") none).1
      = .error (.http 500 "An internal error occurred")
  ∧ (ProjectService.update_project sU "pk1" (.error (.other "validation boom"))
        (some "NewName") none none).1
      = .error (.http 500 "An internal error occurred") := by
  have h1 := c9_commit_precedes_response_assembly.1 sW "fk" 0 (.other "validation boom")
    "N" "E" { id := 1, enumerator := "active" } rfl
  have h2 := c9_commit_precedes_response_assembly.2.1 sW "ak" 0 (.other "validation boom")
    "D" "pk1" none
    { id := 1, project_key := "pk1", customer_id := 1, status_id := 1,
      name := "P1", due_date := some 10, created_at := 0, updated_at := 0 }
    { id := 1, enumerator := "not_started" } rfl rfl
  have h3 := c9_commit_precedes_response_assembly.2.2.1 sU "pk9" 0 "validation boom"
    "NP" "ck" none
    { id := 1, customer_key := "ck", status_id := 1, name := "Ada",
      email := "ada@x.com", created_at := 0, updated_at := 0 }
    { id := 1, enumerator := "open" } rfl rfl
  have h4 := c9_commit_precedes_response_assembly.2.2.2.1 sU "ck"
    (.other "validation boom") (some "Grace") none none
    { id := 1, customer_key := "ck", status_id := 1, name := "Ada",
      email := "ada@x.com", created_at := 0, updated_at := 0 }
    { id := 1, customer_key := "ck", status_id := 1, name := "Grace",
      email := "ada@x.com", created_at := 0, updated_at := 0 } rfl rfl
  have h5 := c9_commit_precedes_response_assembly.2.2.2.2.1 sU "ak1"
    (.other "validation boom") none (some "in_progress") none
    { id := 1, activity_key := "ak1", project_id := 1, status_id := 1,
      due_date := none, description := "D", created_at := 0, updated_at := 0 }
    { id := 1, activity_key := "ak1", project_id := 1, status_id := 2,
      due_date := none, description := "D", created_at := 0, updated_at := 0 } rfl rfl
  have h6 := c9_commit_precedes_response_assembly.2.2.2.2.2 sU "pk1"
    "validation boom" (some "NewName") none none
    { id := 1, project_key := "pk1", customer_id := 1, status_id := 1,
      name := "P1", due_date := none, created_at := 0, updated_at := 0 }
    { id := 1, project_key := "pk1", customer_id := 1, status_id := 1,
      name := "NewName", due_date := none, created_at := 0, updated_at := 0 } rfl rfl
  exact ⟨h1.1, h2.1, h3.1, h4.1, h5.1, h6.1⟩

/-- Witness for C5 on the populated fixture: limit 2, page 3, filter
"open". The service reports 2 total items in 1 page (the ceiling of 2/2),
page 1 is the 2-element prefix of the filtered set, and page 3 (offset 4,
past the end) returns zero entities without an error. -/
theorem c5_pagination_witness :
    (2 : Nat) ≤ 1 * 2
  ∧ (1 : Nat) ≤ 3
  ∧ ProjectRepository.list_projects_by_customer dbW 1 "open" none 2 1
      = .ok (([{ id := 1, project_key := "pk1", customer_id := 1, status_id := 1,
                 name := "P1", due_date := some 10, created_at := 0, updated_at := 0 },
               { id := 3, project_key := "pk3", customer_id := 1, status_id := 1,
                 name := "P3", due_date := none, created_at := 0, updated_at := 0 }]
              : List ProjectRow).take 2)
  ∧ ProjectRepository.list_projects_by_customer dbW 1 "open" none 2 3 = .ok [] := by
  have h := c5_pagination sW "ck" false "open" none 2 3 (.ok ())
    { projects := [], total_items := 2, total_pages := 1, current_page := 3, limit := 2 }
    (by decide) (by decide) rfl
  have h2 := h.2 dbW 1 2
    [{ id := 1, project_key := "pk1", customer_id := 1, status_id := 1,
       name := "P1", due_date := some 10, created_at := 0, updated_at := 0 },
     { id := 3, project_key := "pk3", customer_id := 1, status_id := 1,
       name := "P3", due_date := none, created_at := 0, updated_at := 0 }] rfl rfl
  exact ⟨h.1.1, h.1.2 3 (by decide), h2.1, h2.2 (by decide)⟩

/-- Helper: `exceptMapList` succeeds pointwise: when every element maps to
an `ok`, the whole traversal is the `ok` of the mapped list. -/
theorem exceptMapList_ok {α β : Type} (f : α → Except Exc β) (g : α → β) :
    ∀ (xs : List α), (∀ x ∈ xs, f x = .ok (g x)) →
      exceptMapList f xs = .ok (xs.map g) := by
  intro xs
  induction xs with
  | nil => intro _; rfl
  | cons x xs ih =>
    intro h
    have hx : f x = .ok (g x) := h x (List.mem_cons_self _ _)
    have hxs := ih (fun y hy => h y (List.mem_cons_of_mem _ hy))
    simp only [exceptMapList, hx, hxs, List.map_cons]

/-- Helper: every element of a successful `exceptMapList` image comes from
some element of the input list. -/
theorem exceptMapList_mem {α β : Type} {f : α → Except Exc β} :
    ∀ {xs : List α} {ys : List β}, exceptMapList f xs = .ok ys →
      ∀ y ∈ ys, ∃ x ∈ xs, f x = .ok y := by
  intro xs
  induction xs with
  | nil =>
    intro ys h y hy
    simp only [exceptMapList] at h
    injection h with h2
    subst h2
    simp at hy
  | cons x xs ih =>
    intro ys h y hy
    simp only [exceptMapList] at h
    cases hf : f x with
    | error e => rw [hf] at h; cases h
    | ok y0 =>
      rw [hf] at h
      cases hrest : exceptMapList f xs with
      | error e => rw [hrest] at h; cases h
      | ok ys' =>
        rw [hrest] at h
        injection h with h2
        subst h2
        rcases List.mem_cons.mp hy with hy0 | hy'
        · exact ⟨x, List.mem_cons_self _ _, by rw [hf, hy0]⟩
        · obtain ⟨x', hx', hfx'⟩ := ih hrest y hy'
          exact ⟨x', List.mem_cons_of_mem _ hx', hfx'⟩

/-- C6: for a fixed filter, the count equals the total number of entities
obtained by iterating the listing over all pages (page size `limit`,
pages `1` to `ceil(count / limit)`), because count and list build the same
filter pipeline. -/
theorem c6_count_equals_iterated_list (db : DB) (cid : Nat) (stTok : String)
    (due : Option Nat) (limit n : Nat) (hl : 0 < limit)
    (hcount : ProjectRepository.count_projects_by_customer db cid stTok due = .ok n) :
    ∃ pages : List (List ProjectRow),
      exceptMapList
          (fun i => ProjectRepository.list_projects_by_customer db cid stTok due limit (i + 1))
          (List.range ((n + limit - 1) / limit)) = .ok pages
      ∧ pages.flatten.length = n := by
  rw [count_eq_filtered_length] at hcount
  cases hF0 : filteredProjectsQuery db cid stTok due with
  | error e => rw [hF0] at hcount; simp [Except.map] at hcount
  | ok F0 =>
    rw [hF0] at hcount
    simp only [Except.map, Except.ok.injEq] at hcount
    refine ⟨(List.range ((n + limit - 1) / limit)).map
      (fun i => (F0.drop (i * limit)).take limit), ?_, ?_⟩
    · apply exceptMapList_ok
      intro i _
      rw [list_eq_filtered_window, hF0]
      simp only [Except.map]
      rfl
    · have hcover : F0.length ≤ ((n + limit - 1) / limit) * limit := by
        rw [hcount]
        exact (ceil_div_spec n limit hl).1
      rw [join_chunks limit ((n + limit - 1) / limit) F0 hcover]
      exact hcount

/-- Witness for C6 on the populated fixture: count of "open" projects is 2;
iterating the listing with page size 1 over the 2 pages yields two
singleton pages totalling 2 entities. -/
theorem c6_count_equals_iterated_list_witness :
    exceptMapList
        (fun i => ProjectRepository.list_projects_by_customer dbW 1 "open" none 1 (i + 1))
        (List.range ((2 + 1 - 1) / 1))
      = .ok [[{ id := 1, project_key := "pk1", customer_id := 1, status_id := 1,
                name := "P1", due_date := some 10, created_at := 0, updated_at := 0 }],
             [{ id := 3, project_key := "pk3", customer_id := 1, status_id := 1,
                name := "P3", due_date := none, created_at := 0, updated_at := 0 }]]
  ∧ ([[{ id := 1, project_key := "pk1", customer_id := 1, status_id := 1,
         name := "P1", due_date := some 10, created_at := 0, updated_at := 0 }],
      [{ id := 3, project_key := "pk3", customer_id := 1, status_id := 1,
         name := "P3", due_date := none, created_at := 0, updated_at := 0 }]]
     : List (List ProjectRow)).flatten.length = 2 := by
  obtain ⟨pages, hp, hlen⟩ :=
    c6_count_equals_iterated_list dbW 1 "open" none 1 2 (by decide) rfl
  have he : (Except.ok pages : Except Exc (List (List ProjectRow)))
      = .ok [[{ id := 1, project_key := "pk1", customer_id := 1, status_id := 1,
                name := "P1", due_date := some 10, created_at := 0, updated_at := 0 }],
             [{ id := 3, project_key := "pk3", customer_id := 1, status_id := 1,
                name := "P3", due_date := none, created_at := 0, updated_at := 0 }]] := by
    rw [← hp]; rfl
  injection he with he2
  exact ⟨by rw [hp, he2], by rw [← he2]; exact hlen⟩

/-- Helper: when the table's ids are distinct and the row is in the table,
the relationship lookup by id yields that row's enumerator. -/
theorem statusEnumerator_nodup {tbl : List StatusRow} {st : StatusRow}
    (hids : (tbl.map StatusRow.id).Nodup) (hmem : st ∈ tbl) :
    statusEnumerator tbl st.id = .ok st.enumerator := by
  unfold statusEnumerator
  cases hf : tbl.filter (fun r => r.id == st.id) with
  | nil =>
    exfalso
    have hin : st ∈ tbl.filter (fun r => r.id == st.id) :=
      List.mem_filter.mpr ⟨hmem, by simp⟩
    rw [hf] at hin
    simp at hin
  | cons r rest =>
    have hr : r ∈ tbl.filter (fun x => x.id == st.id) := by
      rw [hf]; exact List.mem_cons_self _ _
    have hm := List.mem_filter.mp hr
    have hid : r.id = st.id := by simpa using hm.2
    have hrst : r = st := List.inj_on_of_nodup_map hids hm.1 hmem hid
    rw [hrst]

/-- Helper: a successfully assembled project item reports the enumerator
token its status id resolves to. -/
theorem assembleListedProject_status {db : DB} {customer : CustomerRow}
    {inc : Bool} {v : Except Exc Unit} {p : ProjectRow}
    {dto : ProjectResponseDTO} {tok : String}
    (hse : statusEnumerator db.projectStatuses p.status_id = .ok tok)
    (h : assembleListedProject db customer inc v p = .ok dto) : dto.status = tok := by
  simp only [assembleListedProject, hse] at h
  by_cases hinc : inc = true
  · simp only [hinc, if_true] at h
    cases hal : exceptMapList (assembleListedActivity db p) (activitiesRel db p) with
    | error e => rw [hal] at h; simp at h
    | ok u =>
      rw [hal] at h
      cases v with
      | error e => simp at h
      | ok u2 =>
        simp only [Except.ok.injEq] at h
        rw [← h]
  · simp only [if_neg hinc] at h
    cases v with
    | error e => simp at h
    | ok u2 =>
      simp only [Except.ok.injEq] at h
      rw [← h]

/-- Helper: the filtered pipeline for a non-empty status token only keeps
rows whose status id is the resolved one. -/
theorem filteredProjectsQuery_status {db : DB} {cid : Nat} {tok : String}
    {due : Option Nat} {F0 : List ProjectRow} {stObj : StatusRow}
    (hne : (tok != "") = true)
    (hg : get_enumerator db.projectStatuses tok = .ok stObj)
    (hF : filteredProjectsQuery db cid tok due = .ok F0) :
    ∀ p ∈ F0, p.status_id = stObj.id := by
  simp only [filteredProjectsQuery, hne, hg, if_true] at hF
  cases due with
  | none =>
    injection hF with h2
    subst h2
    intro p hp
    have := (List.mem_filter.mp hp).2
    simpa using this
  | some cutoff =>
    injection hF with h2
    subst h2
    intro p hp
    have hp1 := (List.mem_filter.mp hp).1
    have := (List.mem_filter.mp hp1).2
    simpa using this

/-- Helper: a successful filtered pipeline for a non-empty status token
implies the token resolved in the status table. -/
theorem filteredProjectsQuery_resolves {db : DB} {cid : Nat} {tok : String}
    {due : Option Nat} {F0 : List ProjectRow}
    (hne : (tok != "") = true)
    (hF : filteredProjectsQuery db cid tok due = .ok F0) :
    ∃ stObj, get_enumerator db.projectStatuses tok = .ok stObj := by
  simp only [filteredProjectsQuery, hne, if_true] at hF
  cases hg : get_enumerator db.projectStatuses tok with
  | error e => rw [hg] at hF; simp at hF
  | ok stObj => exact ⟨stObj, rfl⟩

/-- C10: a `GET /projects/(customerKey)` request that omits the `status`
query parameter is served with the route default "open": the repository
applies the status filter for the non-empty token, so every project in the
response carries status "open" — closed projects are excluded rather than
all statuses being returned. (The id-uniqueness hypothesis is the status
table's primary key.) -/
theorem c10_default_status_filters_open
    (s : Sess) (ck : String) (inc : Option Bool) (due : Option Nat)
    (limitQ pageQ : Option Nat) (v : Except Exc Unit)
    (resp : PaginatedProjectsResponseDTO)
    (hids : (s.pending.projectStatuses.map StatusRow.id).Nodup)
    (hresp : (listProjectsByCustomerRoute s ck inc none due limitQ pageQ v).1 = .ok resp) :
    ∀ dto ∈ resp.projects, dto.status = "open" := by
  simp only [listProjectsByCustomerRoute, Option.getD_none,
    ProjectService.list_projects_by_customer] at hresp
  cases hc : CustomerRepository.get_by_key s.pending ck with
  | none => simp only [hc] at hresp; simp [projectStyleHandler] at hresp
  | some customer =>
    simp only [hc] at hresp
    cases hcount : ProjectRepository.count_projects_by_customer s.pending customer.id "open" due with
    | error e => simp only [hcount] at hresp; cases e <;> simp [projectStyleHandler] at hresp
    | ok total =>
      simp only [hcount] at hresp
      cases hlist : ProjectRepository.list_projects_by_customer s.pending customer.id "open" due
          (limitQ.getD 100) (pageQ.getD 1) with
      | error e => simp only [hlist] at hresp; cases e <;> simp [projectStyleHandler] at hresp
      | ok projects =>
        simp only [hlist] at hresp
        cases hmap : exceptMapList
            (assembleListedProject s.pending customer (inc.getD false) v) projects with
        | error e => simp only [hmap] at hresp; cases e <;> simp [projectStyleHandler] at hresp
        | ok prs =>
          simp only [hmap, projectStyleHandler] at hresp
          injection hresp with h2
          subst h2
          intro dto hdto
          obtain ⟨p, hpmem, hassem⟩ := exceptMapList_mem hmap dto hdto
          rw [list_eq_filtered_window] at hlist
          cases hF0 : filteredProjectsQuery s.pending customer.id "open" due with
          | error e => rw [hF0] at hlist; simp [Except.map] at hlist
          | ok F0 =>
            rw [hF0] at hlist
            simp only [Except.map, Except.ok.injEq] at hlist
            have hpF0 : p ∈ F0 := by
              rw [← hlist] at hpmem
              exact List.drop_subset _ _ (List.take_subset _ _ hpmem)
            obtain ⟨stOpen, hg⟩ := filteredProjectsQuery_resolves (by decide) hF0
            have hstat : p.status_id = stOpen.id :=
              filteredProjectsQuery_status (by decide) hg hF0 p hpF0
            have hmemtok := get_enumerator_ok hg
            have hse : statusEnumerator s.pending.projectStatuses p.status_id
                = .ok stOpen.enumerator := by
              rw [hstat]
              exact statusEnumerator_nodup hids hmemtok.1
            have := assembleListedProject_status hse hassem
            rw [this, hmemtok.2]

/-- Witness for C10 on the populated fixture: the route call without a
status parameter returns exactly the two "open" projects, and the theorem
instantiates on the first returned item. -/
theorem c10_default_status_filters_open_witness :
    (listProjectsByCustomerRoute sW "ck" none none none none none (.ok ())).1
      = .ok { projects := [{ project_key := "pk1", name := "P1", status := "open",
                             customer_key := "ck", due_date := some 10,
                             created_at := 0, updated_at := 0 },
                           { project_key := "pk3", name := "P3", status := "open",
                             customer_key := "ck", due_date := none,
                             created_at := 0, updated_at := 0 }],
              total_items := 2, total_pages := 1, current_page := 1, limit := 100 }
  ∧ ({ project_key := "pk1", name := "P1", status := "open", customer_key := "ck",
       due_date := some 10, created_at := 0, updated_at := 0 }
      : ProjectResponseDTO).status = "open" := by
  constructor
  · rfl
  · exact c10_default_status_filters_open sW "ck" none none none none (.ok ())
      { projects := [{ project_key := "pk1", name := "P1", status := "open",
                       customer_key := "ck", due_date := some 10,
                       created_at := 0, updated_at := 0 },
                     { project_key := "pk3", name := "P3", status := "open",
                       customer_key := "ck", due_date := none,
                       created_at := 0, updated_at := 0 }],
        total_items := 2, total_pages := 1, current_page := 1, limit := 100 }
      (by decide) rfl
      { project_key := "pk1", name := "P1", status := "open", customer_key := "ck",
        due_date := some 10, created_at := 0, updated_at := 0 }
      (List.mem_cons_self _ _)

end TaskFlow
